import Mathlib

/-
Verification development for the idempotent-wallet transfer service.

The embedding models the TypeScript sources:
  src/src/services/TransferService.ts   (executeTransfer, markTransactionFailed,
                                         buildResponseFromLog, validateTransferRequest)
  src/src/services/RedisService.ts      (acquireLock, acquireLockWithRetry, releaseLock,
                                         getCachedResult, cacheResult)
  src/src/models/TransactionLog.ts      (model-level validation: idempotencyKey len 1..255,
                                         unique constraint on idempotencyKey)

Modelling decisions, stated once here:
* DECIMAL(19,4) strings are represented by their exact value in quarter-units
  (the integer value-times-10^4); at 4 fractional digits this representation is
  in bijection with the canonical decimal strings, and toFixed4 renders it back.
* The service computes balances with JavaScript number arithmetic
  (parseFloat / binary64 / toFixed(4)).  That arithmetic is embedded exactly:
  FQ is an unnormalised fraction type, roundDouble is IEEE-754 binary64
  round-to-nearest-even (normal range; overflow and subnormals below 2^-1022 do
  not arise for DECIMAL(19,4) inputs), and toFixed4Q is the ECMA toFixed digit
  selection (nearest, ties towards the larger result).
* The ledger transaction is modelled with rollback semantics: if the
  transaction body throws, the pre-transaction state is kept (READ COMMITTED
  managed transaction of sequelize).  markTransactionFailed then runs outside
  the transaction, exactly as in the source.
* The cache / lock store is modelled in its non-failing behaviour; the
  fail-open paths taken on store errors are out of scope of the claims proved
  here.  Timestamps (requestedAt / completedAt) are not tracked; the failedAt
  metadata merge is tracked as a flag.
* One request is executed sequentially (the scheduling model of the spec);
  states with logs or locks already present model the footprint of other
  requests or instances.
-/

set_option maxRecDepth 16384

/-! ## Exact model of the JavaScript number arithmetic on the money path -/

/-- Unnormalised fraction n / d with positive denominator in every use. -/
structure FQ where
  n : Int
  d : Int
deriving DecidableEq, Repr

def FQ.sub (a b : FQ) : FQ := ⟨a.n * b.d - b.n * a.d, a.d * b.d⟩

def FQ.add (a b : FQ) : FQ := ⟨a.n * b.d + b.n * a.d, a.d * b.d⟩

def FQ.blt (a b : FQ) : Bool := a.n * b.d < b.n * a.d

def FQ.ble (a b : FQ) : Bool := a.n * b.d ≤ b.n * a.d

/-- Largest e with d * 2^e ≤ n, by bounded search upward (enough fuel for
binary64 exponents). -/
def flogUp : Nat → Int → Int → Nat → Nat
  | 0, _, _, e => e
  | fuel + 1, n, d, e => if d * 2 ^ (e + 1) ≤ n then flogUp fuel n d (e + 1) else e

/-- Smallest k ≥ 1 with d ≤ n * 2^k, by bounded search upward. -/
def flogDown : Nat → Int → Int → Nat → Nat
  | 0, _, _, k => k
  | fuel + 1, n, d, k => if d ≤ n * 2 ^ k then k else flogDown fuel n d (k + 1)

/-- Floor of log2 of a positive fraction: the greatest e with 2^e ≤ a. -/
def FQ.floorLog2 (a : FQ) : Int :=
  if a.d ≤ a.n then (flogUp 1200 a.n a.d 0 : Int)
  else -(flogDown 1200 a.n a.d 1 : Int)

/-- Round a fraction (positive denominator) to the nearest integer, ties to
even: the binary64 significand rounding rule. -/
def rne (a : FQ) : Int :=
  let f := Int.fdiv a.n a.d
  let r := a.n - f * a.d
  if 2 * r < a.d then f
  else if a.d < 2 * r then f + 1
  else if f % 2 = 0 then f else f + 1

/-- Round a positive fraction to the binary64 grid: significand of 53 bits at
exponent e, round to nearest, ties to even.  Exponent clamped at -1022
(subnormal threshold); overflow beyond 2^1024 is outside the modelled range. -/
def roundMantissa (a : FQ) : FQ :=
  let e : Int := max (FQ.floorLog2 a) (-1022)
  let s : Int := 52 - e
  if 0 ≤ s then
    ⟨rne ⟨a.n * 2 ^ s.toNat, a.d⟩, 2 ^ s.toNat⟩
  else
    ⟨rne ⟨a.n, a.d * 2 ^ (-s).toNat⟩ * 2 ^ (-s).toNat, 1⟩

/-- IEEE-754 binary64 round-to-nearest-even of an exact fraction value. -/
def roundDouble (a : FQ) : FQ :=
  if a.n = 0 then ⟨0, 1⟩
  else if 0 < a.n then roundMantissa a
  else
    let p := roundMantissa ⟨-a.n, a.d⟩
    ⟨-p.n, p.d⟩

/-- ECMA toFixed(4) digit selection for a nonnegative value: the integer m
minimising the distance of m / 10^4 to the value, ties towards the larger m.
Returns the result in quarter-units. -/
def toFixed4Q (x : FQ) : Int :=
  let f := Int.fdiv (x.n * 10000) x.d
  let r := x.n * 10000 - f * x.d
  if 2 * r < x.d then f else f + 1

/-- parseFloat of the canonical DECIMAL(19,4) rendering of q quarter-units:
the binary64 nearest to q / 10^4. -/
def jsFloat (q : Int) : FQ := roundDouble ⟨q, 10000⟩

/-- Lines 157-169 of TransferService.ts, from-side:
(parseFloat(fromWallet.balance) - parseFloat(amount)).toFixed(4),
in quarter-units. -/
def jsNewFromBalance (bal amt : Int) : Int :=
  toFixed4Q (roundDouble ((jsFloat bal).sub (jsFloat amt)))

/-- Lines 170-171 of TransferService.ts, to-side:
(parseFloat(toWallet.balance) + parseFloat(amount)).toFixed(4),
in quarter-units. -/
def jsNewToBalance (bal amt : Int) : Int :=
  toFixed4Q (roundDouble ((jsFloat bal).add (jsFloat amt)))

/-- Line 160 of TransferService.ts: fromBalanceNum < amountNum, the binary64
comparison deciding INSUFFICIENT_BALANCE. -/
def jsBalanceLt (bal amt : Int) : Bool := (jsFloat bal).blt (jsFloat amt)

/-! ## Rendering quarter-units back to DECIMAL(19,4) strings -/

def pad4 (n : Nat) : String :=
  if n < 10 then "000" ++ toString n
  else if n < 100 then "00" ++ toString n
  else if n < 1000 then "0" ++ toString n
  else toString n

def toFixed4Nat (q : Nat) : String := toString (q / 10000) ++ "." ++ pad4 (q % 10000)

/-- Canonical 4-fractional-digit decimal string of q quarter-units. -/
def toFixed4 (q : Int) : String :=
  if q < 0 then "-" ++ toFixed4Nat (-q).toNat else toFixed4Nat q.toNat

/-! ## String order of the wallet-id lock ordering

JavaScript compares strings by code units; for the BMP/ASCII wallet ids this is
lexicographic comparison of the character codes, modelled on the char list. -/

def lexLt : List Char → List Char → Bool
  | [], [] => false
  | [], _ :: _ => true
  | _ :: _, [] => false
  | a :: as, b :: bs =>
    if a.toNat < b.toNat then true
    else if b.toNat < a.toNat then false
    else lexLt as bs

/-- The string comparison fromWalletId < toWalletId of line 135. -/
def strLt (a b : String) : Bool := lexLt a.data b.data

/-! ## Data model -/

inductive TxStatus where
  | PENDING
  | SUCCESS
  | FAILED
deriving DecidableEq, Repr

/-- Wallet row: balance in quarter-units of the DECIMAL(19,4) string. -/
structure Wallet where
  balance : Int
  version : Nat
deriving DecidableEq, Repr

/-- The metadata JSONB fields the service reads and writes
(fromBalanceAfter / toBalanceAfter as rendered strings, and the failedAt merge
of markTransactionFailed, tracked as a flag). -/
structure MetaData where
  fromBalanceAfter : Option String
  toBalanceAfter : Option String
  failedAt : Bool
deriving DecidableEq, Repr

/-- transaction_logs row; logs are addressed by their unique idempotencyKey,
the id column is an opaque counter value. -/
structure TxLog where
  id : Nat
  fromWalletId : String
  toWalletId : String
  amount : Int
  status : TxStatus
  idempotencyKey : String
  errorMessage : Option String
  metadata : Option MetaData
deriving DecidableEq, Repr

structure TransferRequest where
  fromWalletId : String
  toWalletId : String
  amount : Int
  idempotencyKey : String
deriving DecidableEq, Repr

structure TransferResponse where
  success : Bool
  transactionId : Nat
  message : String
  fromBalance : Option String
  toBalance : Option String
deriving DecidableEq, Repr

structure TransferError where
  message : String
  statusCode : Nat
  code : Option String
deriving DecidableEq, Repr

/-- Whole-system state: ledger wallets and logs (keyed by wallet id and by
idempotencyKey), the result cache and the lock store of the cache layer, the
id counter for log inserts, and the clock read by acquireLock. -/
structure SysState where
  wallets : String → Option Wallet
  logs : String → Option TxLog
  cache : String → Option TransferResponse
  locks : String → Option Nat
  nextId : Nat
  now : Nat

/-! ## RedisService model (non-failing behaviour) -/

/-- RedisService.getCachedResult: read idempotency:(key). -/
def getCachedResult (key : String) (st : SysState) : Option TransferResponse :=
  st.cache key

/-- RedisService.cacheResult: write idempotency:(key). -/
def cacheResult (key : String) (result : TransferResponse) (st : SysState) : SysState :=
  { st with cache := fun k => if k = key then some result else st.cache k }

/-- RedisService.releaseLock: unconditional DEL of lock:(key). -/
def releaseLock (key : String) (st : SysState) : SysState :=
  { st with locks := fun k => if k = key then none else st.locks k }

/-- The state with lock:(key) set to the current clock value. -/
def lockSet (key : String) (st : SysState) : SysState :=
  { st with locks := fun k => if k = key then some st.now else st.locks k }

/-- RedisService.acquireLock: SET lock:(key) = now NX. -/
def acquireLock (key : String) (st : SysState) : Bool × SysState :=
  match st.locks key with
  | some _ => (false, st)
  | none => (true, lockSet key st)

def acquireLockWithRetryAux : Nat → String → SysState → Bool × SysState
  | 0, _, st => (false, st)
  | fuel + 1, key, st =>
    match acquireLock key st with
    | (true, st') => (true, st')
    | (false, st') => acquireLockWithRetryAux fuel key st'

/-- RedisService.acquireLockWithRetry: LOCK_MAX_RETRIES = 50 attempts; in the
sequential model the lock store does not change between attempts. -/
def acquireLockWithRetry (key : String) (st : SysState) : Bool × SysState :=
  acquireLockWithRetryAux 50 key st

/-- RedisService.invalidateCache: DEL idempotency:(key).  Also models an
expired cache entry between two requests. -/
def invalidateCache (key : String) (st : SysState) : SysState :=
  { st with cache := fun k => if k = key then none else st.cache k }

/-! ## Validator (TransferService.validateTransferRequest, lines 295-332) -/

def isHexUuidChar (c : Char) : Bool :=
  (48 ≤ c.toNat && c.toNat ≤ 57) || (97 ≤ c.toNat && c.toNat ≤ 102) ||
    (65 ≤ c.toNat && c.toNat ≤ 70)

def splitDash : List Char → List (List Char)
  | [] => [[]]
  | c :: cs =>
    if c = '-' then [] :: splitDash cs
    else
      match splitDash cs with
      | g :: gs => (c :: g) :: gs
      | [] => [[c]]

/-- The 8-4-4-4-12 case-insensitive hex form of line 327. -/
def isUuid (s : String) : Bool :=
  let gs := splitDash s.data
  decide (gs.map List.length = [8, 4, 4, 4, 12]) && gs.all (fun g => g.all isHexUuidChar)

/-- Lines 295-332.  A missing amount field is not representable here: the
modelled request always carries the exact value of a decimal numeral, so the
falsy-amount and NaN branches cannot fire (they are unreachable for canonical
DECIMAL(19,4) input).  The numeric comparisons are the binary64 comparisons of
the source. -/
def validateTransferRequest (req : TransferRequest) : Option TransferError :=
  if req.fromWalletId = "" ∨ req.toWalletId = "" ∨ req.idempotencyKey = "" then
    some ({ message := "Missing required fields", statusCode := 400,
            code := some "INVALID_REQUEST" } : TransferError)
  else if req.fromWalletId = req.toWalletId then
    some ({ message := "Cannot transfer to the same wallet", statusCode := 400,
            code := some "SAME_WALLET_TRANSFER" } : TransferError)
  else if (jsFloat req.amount).ble ⟨0, 1⟩ then
    some ({ message := "Amount must be a positive number", statusCode := 400,
            code := some "INVALID_AMOUNT" } : TransferError)
  else if (jsFloat req.amount).blt (jsFloat 1) then
    some ({ message := "Amount must be at least 0.0001", statusCode := 400,
            code := some "AMOUNT_TOO_SMALL" } : TransferError)
  else if !(isUuid req.fromWalletId && isUuid req.toWalletId) then
    some ({ message := "Invalid wallet ID format", statusCode := 400,
            code := some "INVALID_WALLET_ID" } : TransferError)
  else none

/-! ## Transfer executor -/

/-- Lines 134-137: lock wallet rows in consistent order. -/
def lockPair (fromWalletId toWalletId : String) : String × String :=
  if strLt fromWalletId toWalletId then (fromWalletId, toWalletId)
  else (toWalletId, fromWalletId)

/-- Errors thrown inside the ledger transaction: TransferError throws, or a
sequelize model-validation error (a non-TransferError). -/
inductive LedgerErr where
  | te (e : TransferError)
  | validation (msg : String)
deriving DecidableEq, Repr

def LedgerErr.message : LedgerErr → String
  | .te e => e.message
  | .validation msg => msg

/-- Lines 232-240: a TransferError is rethrown as is, anything else is wrapped
as TRANSFER_FAILED with status 500. -/
def wrapLedgerErr : LedgerErr → TransferError
  | .te e => e
  | .validation msg => { message := msg, statusCode := 500, code := some "TRANSFER_FAILED" }

structure TxnOk where
  logId : Nat
  newFrom : Int
  newTo : Int
  st : SysState

/-- The transaction body, lines 105-208.  TransactionLog.create first runs the
model validations of TransactionLog.ts (idempotencyKey len 1..255; amount min
0.0001), then the INSERT whose unique constraint on idempotencyKey signals
DUPLICATE_REQUEST. -/
def ledgerTxn (req : TransferRequest) (st : SysState) : Except LedgerErr TxnOk :=
  if req.idempotencyKey.length < 1 ∨ 255 < req.idempotencyKey.length then
    .error (.validation "Validation len on idempotencyKey failed")
  else if (jsFloat req.amount).blt (jsFloat 1) then
    .error (.validation "Validation min on amount failed")
  else
    match st.logs req.idempotencyKey with
    | some _ =>
      .error (.te { message := "Duplicate request detected", statusCode := 409,
                    code := some "DUPLICATE_REQUEST" })
    | none =>
      let log0 : TxLog :=
        { id := st.nextId, fromWalletId := req.fromWalletId,
          toWalletId := req.toWalletId, amount := req.amount,
          status := .PENDING, idempotencyKey := req.idempotencyKey,
          errorMessage := none,
          metadata := some ({ fromBalanceAfter := none, toBalanceAfter := none,
                              failedAt := false } : MetaData) }
      let st1 : SysState :=
        { st with
          logs := fun k => if k = req.idempotencyKey then some log0 else st.logs k,
          nextId := st.nextId + 1 }
      let p := lockPair req.fromWalletId req.toWalletId
      let firstWallet := st1.wallets p.1
      let secondWallet := st1.wallets p.2
      let fromWallet := if req.fromWalletId = p.1 then firstWallet else secondWallet
      let toWallet := if req.toWalletId = p.1 then firstWallet else secondWallet
      match fromWallet, toWallet with
      | some fw, some tw =>
        if jsBalanceLt fw.balance req.amount then
          .error (.te { message := "Insufficient balance. Available: " ++
                          toFixed4 fw.balance ++ ", Required: " ++ toFixed4 req.amount,
                        statusCode := 400, code := some "INSUFFICIENT_BALANCE" })
        else
          let newFrom := jsNewFromBalance fw.balance req.amount
          let newTo := jsNewToBalance tw.balance req.amount
          let fw1 : Wallet := { balance := newFrom, version := fw.version + 1 }
          let tw1 : Wallet := { balance := newTo, version := tw.version + 1 }
          let st2 : SysState :=
            { st1 with wallets := fun w => if w = req.fromWalletId then some fw1 else st1.wallets w }
          let st3 : SysState :=
            { st2 with wallets := fun w => if w = req.toWalletId then some tw1 else st2.wallets w }
          let md1 : MetaData :=
            { fromBalanceAfter := some (toFixed4 newFrom),
              toBalanceAfter := some (toFixed4 newTo),
              failedAt := false }
          let log1 : TxLog := { log0 with status := .SUCCESS, metadata := some md1 }
          let st4 : SysState :=
            { st3 with logs := fun k => if k = req.idempotencyKey then some log1 else st3.logs k }
          .ok { logId := log0.id, newFrom := newFrom, newTo := newTo, st := st4 }
      | _, _ =>
        .error (.te { message := "One or both wallets not found", statusCode := 404,
                      code := some "WALLET_NOT_FOUND" })

/-- Lines 249-269: UPDATE transaction_logs SET status = FAILED, errorMessage,
metadata merged with failedAt, WHERE idempotencyKey = key.  Updates zero rows
when no log row carries the key. -/
def markTransactionFailed (key errorMessage : String) (st : SysState) : SysState :=
  match st.logs key with
  | some log =>
    let md1 : Option MetaData := log.metadata.map (fun m => { m with failedAt := true })
    let log1 : TxLog :=
      { log with status := .FAILED, errorMessage := some errorMessage, metadata := md1 }
    { st with logs := fun k => if k = key then some log1 else st.logs k }
  | none => st

/-- Lines 271-293. -/
def buildResponseFromLog (log : TxLog) : TransferResponse :=
  let base : TransferResponse :=
    { transactionId := log.id,
      success := match log.status with | .SUCCESS => true | _ => false,
      message := match log.status with
        | .SUCCESS => "Transfer already processed (idempotent request)"
        | .PENDING => "Transfer is being processed"
        | .FAILED => "Transfer previously failed",
      fromBalance := none, toBalance := none }
  match log.status, log.metadata with
  | .SUCCESS, some m =>
    { base with fromBalance := m.fromBalanceAfter, toBalance := m.toBalanceAfter }
  | _, _ => base

/-- Lines 214-220: the success response. -/
def mkSuccessResp (out : TxnOk) : TransferResponse :=
  { success := true, transactionId := out.logId,
    message := "Transfer completed successfully",
    fromBalance := some (toFixed4 out.newFrom),
    toBalance := some (toFixed4 out.newTo) }

/-- Lines 101-240: the managed ledger transaction, then either the success
response is cached (step 5) or, in the catch block, markTransactionFailed runs
unconditionally on the rolled-back state and the error is rethrown
(wrapped when it is not a TransferError). -/
def runLedgerPhase (req : TransferRequest) (st : SysState) :
    Except TransferError TransferResponse × SysState :=
  match ledgerTxn req st with
  | .ok out =>
    (.ok (mkSuccessResp out), cacheResult req.idempotencyKey (mkSuccessResp out) out.st)
  | .error e =>
    (.error (wrapLedgerErr e),
     markTransactionFailed req.idempotencyKey e.message st)

/-- The try block, lines 82-246: step 3 ledger lookup, step 4-5 via
runLedgerPhase, and the finally block that always releases the lock. -/
def afterLockPhase (req : TransferRequest) (st : SysState) :
    Except TransferError TransferResponse × SysState :=
  let r :=
    match st.logs req.idempotencyKey with
    | some log =>
      (Except.ok (buildResponseFromLog log),
       cacheResult req.idempotencyKey (buildResponseFromLog log) st)
    | none => runLedgerPhase req st
  (r.1, releaseLock req.idempotencyKey r.2)

/-- TransferService.executeTransfer, lines 37-247. -/
def executeTransfer (req : TransferRequest) (st : SysState) :
    Except TransferError TransferResponse × SysState :=
  match validateTransferRequest req with
  | some e => (.error e, st)
  | none =>
    match getCachedResult req.idempotencyKey st with
    | some cached =>
      (.ok { cached with
             message := "Transfer already processed (idempotent request) (from cache)" },
       st)
    | none =>
      match acquireLockWithRetry req.idempotencyKey st with
      | (false, st1) =>
        match st1.logs req.idempotencyKey with
        | some log =>
          (.ok (buildResponseFromLog log),
           cacheResult req.idempotencyKey (buildResponseFromLog log) st1)
        | none =>
          (.error { message := "Request is being processed by another instance. Please retry.",
                    statusCode := 409, code := some "CONCURRENT_PROCESSING" }, st1)
      | (true, st1) => afterLockPhase req st1

/-! ## Concrete instances used by the claim theorems -/

def c1A : String := "11111111-1111-1111-1111-111111111111"

def c1B : String := "22222222-2222-2222-2222-222222222222"

def c1St : SysState :=
  { wallets := fun w =>
      if w = c1A then some { balance := 5000000, version := 0 }
      else if w = c1B then some { balance := 5000000, version := 0 }
      else none,
    logs := fun _ => none, cache := fun _ => none, locks := fun _ => none,
    nextId := 1, now := 0 }

def c1Req : TransferRequest :=
  { fromWalletId := c1A, toWalletId := c1B, amount := 20000000,
    idempotencyKey := "c1-key" }

def c1Err : TransferError :=
  { message := "Insufficient balance. Available: 500.0000, Required: 2000.0000",
    statusCode := 400, code := some "INSUFFICIENT_BALANCE" }

def c8A : String := "11111111-1111-1111-1111-111111111111"

def c8B : String := "22222222-2222-2222-2222-222222222222"

def c10St : SysState :=
  { wallets := fun _ => none, logs := fun _ => none, cache := fun _ => none,
    locks := fun k => if k = "held-by-another" then some 12345 else none,
    nextId := 0, now := 7 }

def c2A : String := "11111111-1111-1111-1111-111111111111"

def c2B : String := "22222222-2222-2222-2222-222222222222"

/-- Committed state after a first request with key c1 succeeded: the SUCCESS
log is in the ledger.  A racing duplicate that passed its step-3 lookup before
that commit proceeds straight into the ledger phase on this state. -/
def c2SuccessLog : TxLog :=
  { id := 7, fromWalletId := c2A, toWalletId := c2B, amount := 1000000,
    status := .SUCCESS, idempotencyKey := "c1", errorMessage := none,
    metadata := some { fromBalanceAfter := some "900.0000",
                       toBalanceAfter := some "600.0000", failedAt := false } }

def c2St : SysState :=
  { wallets := fun w =>
      if w = c2A then some { balance := 9000000, version := 1 }
      else if w = c2B then some { balance := 6000000, version := 1 }
      else none,
    logs := fun k => if k = "c1" then some c2SuccessLog else none,
    cache := fun _ => none, locks := fun _ => none, nextId := 8, now := 0 }

def c2Req : TransferRequest :=
  { fromWalletId := c2A, toWalletId := c2B, amount := 1000000,
    idempotencyKey := "c1" }

/-- The SUCCESS log after the unconditional markTransactionFailed of the
catch block has run for the DUPLICATE_REQUEST error. -/
def c2FailedLog : TxLog :=
  { id := 7, fromWalletId := c2A, toWalletId := c2B, amount := 1000000,
    status := .FAILED, idempotencyKey := "c1",
    errorMessage := some "Duplicate request detected",
    metadata := some { fromBalanceAfter := some "900.0000",
                       toBalanceAfter := some "600.0000", failedAt := true } }

def c3A : String := "11111111-1111-1111-1111-111111111111"

def c3B : String := "22222222-2222-2222-2222-222222222222"

/-- Wallet A holds 500.0000; no log, cache entry or lock exists for key i1. -/
def c3St : SysState :=
  { wallets := fun w =>
      if w = c3A then some { balance := 5000000, version := 0 }
      else if w = c3B then some { balance := 5000000, version := 0 }
      else none,
    logs := fun _ => none, cache := fun _ => none, locks := fun _ => none,
    nextId := 1, now := 0 }

def c3Req : TransferRequest :=
  { fromWalletId := c3A, toWalletId := c3B, amount := 20000000,
    idempotencyKey := "i1" }

def c6A : String := "11111111-1111-1111-1111-111111111111"

def c6B : String := "22222222-2222-2222-2222-222222222222"

/-- Wallet A holds 100000000000000.0078 (within DECIMAL(19,4) range), B holds
0; both exist and the key g1 is fresh. -/
def c6St : SysState :=
  { wallets := fun w =>
      if w = c6A then some { balance := 1000000000000000078, version := 0 }
      else if w = c6B then some { balance := 0, version := 0 }
      else none,
    logs := fun _ => none, cache := fun _ => none, locks := fun _ => none,
    nextId := 1, now := 0 }

def c6Req : TransferRequest :=
  { fromWalletId := c6A, toWalletId := c6B, amount := 1, idempotencyKey := "g1" }

def c6Resp : TransferResponse :=
  { success := true, transactionId := 1,
    message := "Transfer completed successfully",
    fromBalance := some "100000000000000.0000", toBalance := some "0.0001" }

/-- Balance of a wallet row, zero when the row is absent. -/
def balOf (st : SysState) (w : String) : Int :=
  match st.wallets w with
  | some wa => wa.balance
  | none => 0

def c7A : String := "11111111-1111-1111-1111-111111111111"

def c7B : String := "22222222-2222-2222-2222-222222222222"

def c7PendingLog : TxLog :=
  { id := 3, fromWalletId := c7A, toWalletId := c7B, amount := 1000000,
    status := .PENDING, idempotencyKey := "c7-key", errorMessage := none,
    metadata := some { fromBalanceAfter := none, toBalanceAfter := none,
                       failedAt := false } }

/-- Lock for c7-key held by another instance; the ledger log for the key is
still PENDING (not terminal); the cache is empty. -/
def c7St : SysState :=
  { wallets := fun w =>
      if w = c7A then some { balance := 10000000, version := 0 }
      else if w = c7B then some { balance := 5000000, version := 0 }
      else none,
    logs := fun k => if k = "c7-key" then some c7PendingLog else none,
    cache := fun _ => none,
    locks := fun k => if k = "c7-key" then some 555 else none,
    nextId := 4, now := 9 }

def c7Req : TransferRequest :=
  { fromWalletId := c7A, toWalletId := c7B, amount := 1000000,
    idempotencyKey := "c7-key" }

def c7Resp : TransferResponse :=
  { success := false, transactionId := 3,
    message := "Transfer is being processed", fromBalance := none, toBalance := none }

def c9A : String := "11111111-1111-1111-1111-111111111111"

def c9B : String := "22222222-2222-2222-2222-222222222222"

def c9LongKey : String := String.mk (List.replicate 256 'a')

def c9St : SysState :=
  { wallets := fun w =>
      if w = c9A then some { balance := 10000000, version := 0 }
      else if w = c9B then some { balance := 5000000, version := 0 }
      else none,
    logs := fun _ => none, cache := fun _ => none, locks := fun _ => none,
    nextId := 1, now := 0 }

def c9Req : TransferRequest :=
  { fromWalletId := c9A, toWalletId := c9B, amount := 1000000,
    idempotencyKey := c9LongKey }

/-- The terminal SUCCESS log row a committed transfer leaves in the ledger. -/
def successLogOf (req : TransferRequest) (out : TxnOk) : TxLog :=
  { id := out.logId, fromWalletId := req.fromWalletId,
    toWalletId := req.toWalletId, amount := req.amount,
    status := .SUCCESS, idempotencyKey := req.idempotencyKey,
    errorMessage := none,
    metadata := some { fromBalanceAfter := some (toFixed4 out.newFrom),
                       toBalanceAfter := some (toFixed4 out.newTo),
                       failedAt := false } }

def c4A : String := "11111111-1111-1111-1111-111111111111"

def c4B : String := "22222222-2222-2222-2222-222222222222"

def c4St : SysState :=
  { wallets := fun w =>
      if w = c4A then some { balance := 10000000, version := 0 }
      else if w = c4B then some { balance := 5000000, version := 0 }
      else none,
    logs := fun _ => none, cache := fun _ => none, locks := fun _ => none,
    nextId := 1, now := 0 }

def c4Req : TransferRequest :=
  { fromWalletId := c4A, toWalletId := c4B, amount := 1000000,
    idempotencyKey := "c4-key" }

def c4Resp : TransferResponse :=
  { success := true, transactionId := 1,
    message := "Transfer completed successfully",
    fromBalance := some "900.0000", toBalance := some "600.0000" }

def c4St1 : SysState := (executeTransfer c4Req c4St).2

/-! ## Footprint lemmas for the state-passing stages -/

@[simp] lemma cacheResult_wallets (key : String) (r : TransferResponse) (st : SysState) :
    (cacheResult key r st).wallets = st.wallets := rfl

@[simp] lemma cacheResult_logs (key : String) (r : TransferResponse) (st : SysState) :
    (cacheResult key r st).logs = st.logs := rfl

@[simp] lemma cacheResult_locks (key : String) (r : TransferResponse) (st : SysState) :
    (cacheResult key r st).locks = st.locks := rfl

@[simp] lemma cacheResult_cache_self (key : String) (r : TransferResponse) (st : SysState) :
    (cacheResult key r st).cache key = some r := by
  simp [cacheResult]

@[simp] lemma releaseLock_wallets (key : String) (st : SysState) :
    (releaseLock key st).wallets = st.wallets := rfl

@[simp] lemma releaseLock_logs (key : String) (st : SysState) :
    (releaseLock key st).logs = st.logs := rfl

@[simp] lemma releaseLock_cache (key : String) (st : SysState) :
    (releaseLock key st).cache = st.cache := rfl

@[simp] lemma releaseLock_locks_self (key : String) (st : SysState) :
    (releaseLock key st).locks key = none := by
  simp [releaseLock]

@[simp] lemma lockSet_wallets (key : String) (st : SysState) :
    (lockSet key st).wallets = st.wallets := rfl

@[simp] lemma lockSet_logs (key : String) (st : SysState) :
    (lockSet key st).logs = st.logs := rfl

@[simp] lemma lockSet_cache (key : String) (st : SysState) :
    (lockSet key st).cache = st.cache := rfl

@[simp] lemma markTransactionFailed_wallets (key msg : String) (st : SysState) :
    (markTransactionFailed key msg st).wallets = st.wallets := by
  unfold markTransactionFailed
  cases st.logs key <;> rfl

@[simp] lemma markTransactionFailed_cache (key msg : String) (st : SysState) :
    (markTransactionFailed key msg st).cache = st.cache := by
  unfold markTransactionFailed
  cases st.logs key <;> rfl

@[simp] lemma markTransactionFailed_locks (key msg : String) (st : SysState) :
    (markTransactionFailed key msg st).locks = st.locks := by
  unfold markTransactionFailed
  cases st.logs key <;> rfl

/-- The bounded-retry lock acquisition either fails leaving the state as it
was, or succeeds setting the lock. -/
lemma acquireLockWithRetryAux_cases (fuel : Nat) (key : String) (st : SysState) :
    acquireLockWithRetryAux fuel key st = (false, st) ∨
    acquireLockWithRetryAux fuel key st = (true, lockSet key st) := by
  induction fuel with
  | zero => left; rfl
  | succ n ih =>
    unfold acquireLockWithRetryAux acquireLock
    cases h : st.locks key
    · right; simp [h]
    · simpa [h] using ih

lemma acquireLockWithRetry_of_locked (key : String) (st : SysState) (v : Nat)
    (h : st.locks key = some v) :
    acquireLockWithRetry key st = (false, st) := by
  unfold acquireLockWithRetry
  induction 50 with
  | zero => rfl
  | succ n ih =>
    unfold acquireLockWithRetryAux acquireLock
    simp [h, ih]

lemma acquireLockWithRetry_of_free (key : String) (st : SysState)
    (h : st.locks key = none) :
    acquireLockWithRetry key st = (true, lockSet key st) := by
  unfold acquireLockWithRetry acquireLockWithRetryAux acquireLock
  simp [h]

lemma afterLockPhase_wallets_or_success (req : TransferRequest) (st : SysState) :
    (∀ w, ((afterLockPhase req st).2).wallets w = st.wallets w) ∨
    (∃ resp, (afterLockPhase req st).1 = .ok resp ∧ resp.success = true) := by
  unfold afterLockPhase
  cases hl : st.logs req.idempotencyKey with
  | some log => left; intro w; simp
  | none =>
    unfold runLedgerPhase
    cases ht : ledgerTxn req st with
    | error e => left; intro w; simp
    | ok out => right; exact ⟨mkSuccessResp out, rfl, rfl⟩

/-- Master footprint lemma: executeTransfer leaves every wallet row unchanged
unless it returns a freshly-executed success response. -/
lemma executeTransfer_wallets_or_success (req : TransferRequest) (st : SysState) :
    (∀ w, ((executeTransfer req st).2).wallets w = st.wallets w) ∨
    (∃ resp, (executeTransfer req st).1 = .ok resp ∧ resp.success = true) := by
  unfold executeTransfer
  cases hv : validateTransferRequest req with
  | some e => left; intro w; rfl
  | none =>
    cases hc : getCachedResult req.idempotencyKey st with
    | some cached => left; intro w; rfl
    | none =>
      rcases acquireLockWithRetryAux_cases 50 req.idempotencyKey st with ha | ha
      · unfold acquireLockWithRetry
        rw [ha]
        cases hl : st.logs req.idempotencyKey with
        | some log => left; intro w; simp [hl]
        | none => left; intro w; simp [hl]
      · unfold acquireLockWithRetry
        rw [ha]
        rcases afterLockPhase_wallets_or_success req (lockSet req.idempotencyKey st)
          with h | ⟨resp, h1, h2⟩
        · left; intro w; simpa using h w
        · right; exact ⟨resp, h1, h2⟩

/-! ## Order facts for the wallet-id comparison -/

lemma lexLt_asymm : ∀ as bs : List Char, lexLt as bs = true → lexLt bs as = false
  | [], [] => by simp [lexLt]
  | [], _ :: _ => by simp [lexLt]
  | _ :: _, [] => by simp [lexLt]
  | a :: as, b :: bs => by
    simp only [lexLt]
    intro h
    by_cases hab : a.toNat < b.toNat
    · rw [if_neg (Nat.lt_asymm hab), if_pos hab]
    · by_cases hba : b.toNat < a.toNat
      · rw [if_neg hab, if_pos hba] at h
        exact absurd h (by simp)
      · rw [if_neg hab, if_neg hba] at h
        rw [if_neg hba, if_neg hab]
        exact lexLt_asymm as bs h

lemma lexLt_total : ∀ as bs : List Char, lexLt as bs = false → lexLt bs as = false → as = bs
  | [], [] => fun _ _ => rfl
  | [], _ :: _ => by simp [lexLt]
  | _ :: _, [] => by simp [lexLt]
  | a :: as, b :: bs => by
    simp only [lexLt]
    intro h1 h2
    by_cases hab : a.toNat < b.toNat
    · rw [if_pos hab] at h1
      exact absurd h1 (by simp)
    · by_cases hba : b.toNat < a.toNat
      · rw [if_pos hba] at h2
        exact absurd h2 (by simp)
      · rw [if_neg hab, if_neg hba] at h1
        rw [if_neg hba, if_neg hab] at h2
        have hc : a = b :=
          Char.ext (UInt32.ext (Nat.le_antisymm (Nat.not_lt.mp hba) (Nat.not_lt.mp hab)))
        rw [hc, lexLt_total as bs h1 h2]

lemma strLt_asymm {a b : String} (h : strLt a b = true) : strLt b a = false :=
  lexLt_asymm a.data b.data h

lemma strLt_total {a b : String} (h1 : strLt a b = false) (h2 : strLt b a = false) : a = b :=
  String.ext (lexLt_total a.data b.data h1 h2)

/-! ## Claim theorems -/

/-- Claim C1: atomicity of a transfer.  Whenever executeTransfer returns an
error - whatever the error - every wallet row (balance and version alike) is
unchanged; and whenever any wallet row changed, the call returned a
success-true response. -/
theorem C1_transfer_atomicity (req : TransferRequest) (st : SysState)
    (res : Except TransferError TransferResponse) (st' : SysState)
    (h : executeTransfer req st = (res, st')) :
    ((∃ e, res = .error e) → ∀ w, st'.wallets w = st.wallets w) ∧
    ((∃ w, st'.wallets w ≠ st.wallets w) →
      ∃ resp, res = .ok resp ∧ resp.success = true) := by
  have hst : st' = (executeTransfer req st).2 := by rw [h]
  have hres : res = (executeTransfer req st).1 := by rw [h]
  rcases executeTransfer_wallets_or_success req st with hp | ⟨resp, h1, h2⟩
  · constructor
    · intro _ w
      rw [hst]
      exact hp w
    · rintro ⟨w, hw⟩
      exact absurd (hst ▸ hp w) hw
  · constructor
    · rintro ⟨e, he⟩
      rw [hres, h1] at he
      exact absurd he (by simp)
    · intro _
      exact ⟨resp, hres ▸ h1, h2⟩

theorem C1_transfer_atomicity_witness :
    (executeTransfer c1Req c1St).1 = .error c1Err ∧
    ((executeTransfer c1Req c1St).2).wallets c1A = c1St.wallets c1A ∧
    ((executeTransfer c1Req c1St).2).wallets c1B = c1St.wallets c1B := by
  refine ⟨by rfl, ?_, ?_⟩
  · exact (C1_transfer_atomicity c1Req c1St _ _ rfl).1 ⟨c1Err, by rfl⟩ c1A
  · exact (C1_transfer_atomicity c1Req c1St _ _ rfl).1 ⟨c1Err, by rfl⟩ c1B

/-- Claim C8: the lock-order computation is direction-independent.  For
distinct wallet ids the (first, second) pair is the same for both transfer
directions, the first is strictly smaller in the code-unit lexicographic
order, and the id-matching role resolution recovers each requested id. -/
theorem C8_lock_order (a b : String) (h : a ≠ b) :
    lockPair a b = lockPair b a ∧
    strLt (lockPair a b).1 (lockPair a b).2 = true ∧
    ((if a = (lockPair a b).1 then (lockPair a b).1 else (lockPair a b).2) = a ∧
     (if b = (lockPair a b).1 then (lockPair a b).1 else (lockPair a b).2) = b) := by
  cases hab : strLt a b
  · cases hba : strLt b a
    · exact absurd (strLt_total hab hba) h
    · have h1 : lockPair a b = (b, a) := by simp [lockPair, hab]
      have h2 : lockPair b a = (b, a) := by simp [lockPair, hba]
      rw [h1, h2]
      exact ⟨rfl, hba, by simp [h], by simp⟩
  · have hba : strLt b a = false := strLt_asymm hab
    have h1 : lockPair a b = (a, b) := by simp [lockPair, hab]
    have h2 : lockPair b a = (a, b) := by simp [lockPair, hba]
    rw [h1, h2]
    exact ⟨rfl, hab, by simp, by simp [Ne.symm h]⟩

theorem C8_lock_order_witness :
    lockPair c8A c8B = lockPair c8B c8A ∧
    strLt (lockPair c8A c8B).1 (lockPair c8A c8B).2 = true ∧
    ((if c8A = (lockPair c8A c8B).1 then (lockPair c8A c8B).1 else (lockPair c8A c8B).2) = c8A ∧
     (if c8B = (lockPair c8A c8B).1 then (lockPair c8A c8B).1 else (lockPair c8A c8B).2) = c8B) :=
  C8_lock_order c8A c8B (by decide)

/-- Claim C10: RedisService.releaseLock performs no ownership check.  For every
state - whatever value the lock holds and whoever set it - the release leaves
the lock key absent, and touches nothing else. -/
theorem C10_releaseLock_unconditional (key : String) (st : SysState) :
    (releaseLock key st).locks key = none ∧
    (∀ k, k ≠ key → (releaseLock key st).locks k = st.locks k) ∧
    (releaseLock key st).wallets = st.wallets ∧
    (releaseLock key st).logs = st.logs ∧
    (releaseLock key st).cache = st.cache := by
  refine ⟨by simp, ?_, rfl, rfl, rfl⟩
  intro k hk
  simp [releaseLock, hk]

theorem C10_releaseLock_unconditional_witness :
    (releaseLock "held-by-another" c10St).locks "held-by-another" = none ∧
    (releaseLock "held-by-another" c10St).locks "other" = c10St.locks "other" :=
  ⟨(C10_releaseLock_unconditional "held-by-another" c10St).1,
   (C10_releaseLock_unconditional "held-by-another" c10St).2.1 "other" (by decide)⟩

/-- Claim C2 (code bug): lines 228-230 call markTransactionFailed for every
error, including DUPLICATE_REQUEST.  On the committed state of a first
successful request - reachable by a concurrent duplicate that performed its
step-3 ledger lookup before that commit and therefore entered the ledger
phase - the duplicate raises DUPLICATE_REQUEST and the catch block rewrites
the terminal SUCCESS log for the key to FAILED. -/
theorem C2_terminal_success_log_overwritten :
    c2St.logs "c1" = some c2SuccessLog ∧
    c2SuccessLog.status = TxStatus.SUCCESS ∧
    (runLedgerPhase c2Req c2St).1 =
      .error { message := "Duplicate request detected", statusCode := 409,
               code := some "DUPLICATE_REQUEST" } ∧
    ((runLedgerPhase c2Req c2St).2).logs "c1" = some c2FailedLog ∧
    c2FailedLog.status = TxStatus.FAILED := by
  refine ⟨rfl, rfl, rfl, by decide, rfl⟩

/-- Claim C3 (code bug): the INSUFFICIENT_BALANCE rejection of scenario 5
leaves no transaction log at all.  The PENDING insert lives inside the ledger
transaction that rolls back, so the subsequent markTransactionFailed updates
zero rows: after the call the ledger has no log for key i1, neither FAILED nor
any other status, although the spec, and the rollback test of the repository,
expect a durable FAILED log with the error message. -/
theorem C3_no_failed_log_after_insufficient_balance :
    (executeTransfer c3Req c3St).1 =
      .error { message := "Insufficient balance. Available: 500.0000, Required: 2000.0000",
               statusCode := 400, code := some "INSUFFICIENT_BALANCE" } ∧
    ((executeTransfer c3Req c3St).2).logs "i1" = none ∧
    ((executeTransfer c3Req c3St).2).wallets c3A = c3St.wallets c3A ∧
    ((executeTransfer c3Req c3St).2).wallets c3B = c3St.wallets c3B := by
  refine ⟨rfl, rfl, rfl, rfl⟩

/-- Claim C5 (code bug): the money path computes with binary64 floats, and the
parseFloat/toFixed pipeline of lines 157-171 deviates from exact 4-digit
fixed-point arithmetic inside the documented DECIMAL(19,4) range.  For a
source balance of 100000000000000.0078 and an amount of 0.0001 (both in
range), the float path yields 100000000000000.0000 while the exact result is
100000000000000.0077. -/
theorem C5_money_path_not_exact :
    jsNewFromBalance 1000000000000000078 1 = 1000000000000000000 ∧
    (1000000000000000078 : Int) - 1 = 1000000000000000077 ∧
    jsNewFromBalance 1000000000000000078 1 ≠ 1000000000000000078 - 1 := by
  refine ⟨by decide, by decide, by decide⟩

/-- Claim C6 (code bug): conservation of value fails on the float money path.
The transfer of 0.0001 from A (balance 100000000000000.0078) to B (balance 0)
succeeds, subtracts 0.0078 from A but adds only 0.0001 to B: the sum over the
closed set A, B drops by 0.0077. -/
theorem C6_conservation_violated :
    (executeTransfer c6Req c6St).1 = .ok c6Resp ∧
    c6Resp.success = true ∧
    balOf ((executeTransfer c6Req c6St).2) c6A = 1000000000000000000 ∧
    balOf ((executeTransfer c6Req c6St).2) c6B = 1 ∧
    balOf ((executeTransfer c6Req c6St).2) c6A + balOf ((executeTransfer c6Req c6St).2) c6B ≠
      balOf c6St c6A + balOf c6St c6B := by
  refine ⟨rfl, rfl, rfl, rfl, by decide⟩

/-- Claim C7 counterexample: when the retry budget is exhausted and the log
found for the key is still PENDING - not terminal - executeTransfer does not
fail with CONCURRENT_PROCESSING.  It returns the reconstructed PENDING result
(success = false, message Transfer is being processed) and caches that
response for the key. -/
theorem C7_counterexample_pending_log_returned :
    c7PendingLog.status = TxStatus.PENDING ∧
    (executeTransfer c7Req c7St).1 = .ok c7Resp ∧
    ((executeTransfer c7Req c7St).2).cache "c7-key" = some c7Resp := by
  refine ⟨rfl, rfl, by decide⟩

/-- Claim C7 amended: when the lock cannot be acquired, the fallback returns
the reconstructed result of whatever log exists for the key - terminal or
PENDING alike - and caches it; only when no log exists at all does the call
fail with CONCURRENT_PROCESSING (status 409). -/
theorem C7_amended_fallback_on_any_log (req : TransferRequest) (st : SysState) (v : Nat)
    (hval : validateTransferRequest req = none)
    (hc : st.cache req.idempotencyKey = none)
    (hl : st.locks req.idempotencyKey = some v) :
    (∀ log, st.logs req.idempotencyKey = some log →
      executeTransfer req st =
        (.ok (buildResponseFromLog log),
         cacheResult req.idempotencyKey (buildResponseFromLog log) st)) ∧
    (st.logs req.idempotencyKey = none →
      executeTransfer req st =
        (.error { message := "Request is being processed by another instance. Please retry.",
                  statusCode := 409, code := some "CONCURRENT_PROCESSING" }, st)) := by
  have ha := acquireLockWithRetry_of_locked req.idempotencyKey st v hl
  constructor
  · intro log hlog
    simp only [executeTransfer, hval, getCachedResult, hc, ha, hlog]
  · intro hlog
    simp only [executeTransfer, hval, getCachedResult, hc, ha, hlog]

theorem C7_amended_fallback_witness :
    executeTransfer c7Req c7St =
      (.ok (buildResponseFromLog c7PendingLog),
       cacheResult "c7-key" (buildResponseFromLog c7PendingLog) c7St) :=
  (C7_amended_fallback_on_any_log c7Req c7St 555 rfl rfl rfl).1 c7PendingLog rfl

/-- Claim C9 counterexample: a request whose idempotencyKey is 256 octets long
passes validateTransferRequest - the validator has no length check, so no
INVALID_REQUEST is raised before I/O.  The key is rejected only inside the
ledger transaction, by the length validation of the TransactionLog model, and
surfaces as TRANSFER_FAILED with status 500. -/
theorem C9_counterexample_overlong_key_passes_validator :
    255 < c9LongKey.length ∧
    validateTransferRequest c9Req = none ∧
    (executeTransfer c9Req c9St).1 =
      .error { message := "Validation len on idempotencyKey failed",
               statusCode := 500, code := some "TRANSFER_FAILED" } := by
  refine ⟨by decide, by decide, rfl⟩

/-- Claim C9 amended: the validator does not check the idempotencyKey length.
An over-long key passes validateTransferRequest; the request proceeds through
cache, lock and ledger, and is rejected only by the ledger model validation
inside the transaction, surfacing as TRANSFER_FAILED (500), with every wallet
row unchanged. -/
theorem C9_amended_overlong_key (req : TransferRequest) (st : SysState)
    (hlen : 255 < req.idempotencyKey.length)
    (hval : validateTransferRequest req = none)
    (hc : st.cache req.idempotencyKey = none)
    (hl : st.locks req.idempotencyKey = none)
    (hlog : st.logs req.idempotencyKey = none) :
    executeTransfer req st =
      (.error { message := "Validation len on idempotencyKey failed",
                statusCode := 500, code := some "TRANSFER_FAILED" },
       releaseLock req.idempotencyKey (lockSet req.idempotencyKey st)) ∧
    ∀ w, ((executeTransfer req st).2).wallets w = st.wallets w := by
  have ha := acquireLockWithRetry_of_free req.idempotencyKey st hl
  have htxn : ledgerTxn req (lockSet req.idempotencyKey st) =
      .error (.validation "Validation len on idempotencyKey failed") := by
    unfold ledgerTxn
    rw [if_pos (Or.inr hlen)]
  have hmark : markTransactionFailed req.idempotencyKey
      "Validation len on idempotencyKey failed" (lockSet req.idempotencyKey st) =
      lockSet req.idempotencyKey st := by
    unfold markTransactionFailed
    rw [lockSet_logs, hlog]
  have hmain : executeTransfer req st =
      (.error { message := "Validation len on idempotencyKey failed",
                statusCode := 500, code := some "TRANSFER_FAILED" },
       releaseLock req.idempotencyKey (lockSet req.idempotencyKey st)) := by
    simp only [executeTransfer, hval, getCachedResult, hc, ha, afterLockPhase,
      lockSet_logs, hlog, runLedgerPhase, htxn, wrapLedgerErr, LedgerErr.message, hmark]
  refine ⟨hmain, ?_⟩
  intro w
  rw [hmain]
  simp

theorem C9_amended_overlong_key_witness :
    executeTransfer c9Req c9St =
      (.error { message := "Validation len on idempotencyKey failed",
                statusCode := 500, code := some "TRANSFER_FAILED" },
       releaseLock c9LongKey (lockSet c9LongKey c9St)) ∧
    ∀ w, ((executeTransfer c9Req c9St).2).wallets w = c9St.wallets w :=
  C9_amended_overlong_key c9Req c9St (by decide) (by decide) rfl rfl rfl

@[simp] lemma invalidateCache_wallets (key : String) (st : SysState) :
    (invalidateCache key st).wallets = st.wallets := rfl

@[simp] lemma invalidateCache_logs (key : String) (st : SysState) :
    (invalidateCache key st).logs = st.logs := rfl

@[simp] lemma invalidateCache_locks (key : String) (st : SysState) :
    (invalidateCache key st).locks = st.locks := rfl

@[simp] lemma invalidateCache_cache_self (key : String) (st : SysState) :
    (invalidateCache key st).cache key = none := by
  simp [invalidateCache]

/-- What a successful ledger transaction leaves behind: cache and locks
untouched, and a terminal SUCCESS log for the key carrying the transaction id
and the rendered post-trade balances in its metadata. -/
lemma ledgerTxn_ok_state (req : TransferRequest) (st : SysState) (out : TxnOk)
    (h : ledgerTxn req st = .ok out) :
    out.st.cache = st.cache ∧
    out.st.locks = st.locks ∧
    out.st.logs req.idempotencyKey = some (successLogOf req out) := by
  unfold ledgerTxn at h
  split at h
  · exact absurd h (by simp)
  split at h
  · exact absurd h (by simp)
  split at h
  · exact absurd h (by simp)
  dsimp only at h
  split at h
  case _ fw tw _ _ =>
    split at h
    · exact absurd h (by simp)
    · injection h with h
      subst h
      refine ⟨rfl, rfl, by simp [successLogOf]⟩
  · exact absurd h (by simp)

/-- A lock-free call whose cache missed but whose ledger already carries a log
for the key: the reconstructed response is returned and cached, the lock is
taken and released. -/
lemma executeTransfer_replay_from_log (req2 : TransferRequest) (st : SysState)
    (log : TxLog)
    (hval2 : validateTransferRequest req2 = none)
    (hc : st.cache req2.idempotencyKey = none)
    (hl : st.locks req2.idempotencyKey = none)
    (hlog : st.logs req2.idempotencyKey = some log) :
    executeTransfer req2 st =
      (.ok (buildResponseFromLog log),
       releaseLock req2.idempotencyKey
         (cacheResult req2.idempotencyKey (buildResponseFromLog log)
           (lockSet req2.idempotencyKey st))) := by
  have ha := acquireLockWithRetry_of_free req2.idempotencyKey st hl
  simp only [executeTransfer, hval2, getCachedResult, hc, ha, afterLockPhase,
    lockSet_logs, hlog]

/-- The whole executeTransfer run on a fresh key: cache miss, lock acquired on
the first attempt, no prior log, then the ledger phase, with the lock released
at the end. -/
lemma executeTransfer_fresh_run (req : TransferRequest) (st : SysState)
    (hval : validateTransferRequest req = none)
    (hc : st.cache req.idempotencyKey = none)
    (hl : st.locks req.idempotencyKey = none)
    (hlog : st.logs req.idempotencyKey = none) :
    executeTransfer req st =
      match ledgerTxn req (lockSet req.idempotencyKey st) with
      | .ok out =>
        (.ok (mkSuccessResp out),
         releaseLock req.idempotencyKey
           (cacheResult req.idempotencyKey (mkSuccessResp out) out.st))
      | .error e =>
        (.error (wrapLedgerErr e),
         releaseLock req.idempotencyKey
           (markTransactionFailed req.idempotencyKey e.message
             (lockSet req.idempotencyKey st))) := by
  have ha := acquireLockWithRetry_of_free req.idempotencyKey st hl
  simp only [executeTransfer, hval, getCachedResult, hc, ha, afterLockPhase,
    lockSet_logs, hlog, runLedgerPhase]
  cases ledgerTxn req (lockSet req.idempotencyKey st) <;> rfl

/-- Claim C4: replay equivalence.  After a first transfer for a fresh key
completed with a success response, every later call carrying the same key and
passing validation - served from the cache, or from the ledger log after the
cache entry expired - returns the same transactionId, success = true, and the
same fromBalance / toBalance strings; only the message may differ. -/
theorem C4_replay_equivalence (req req2 : TransferRequest) (st : SysState)
    (resp : TransferResponse) (st1 : SysState)
    (hc : st.cache req.idempotencyKey = none)
    (hl : st.locks req.idempotencyKey = none)
    (hlog : st.logs req.idempotencyKey = none)
    (hrun : executeTransfer req st = (.ok resp, st1))
    (hkey : req2.idempotencyKey = req.idempotencyKey)
    (hval2 : validateTransferRequest req2 = none) :
    resp.success = true ∧
    (∃ resp2 st2, executeTransfer req2 st1 = (.ok resp2, st2) ∧
      resp2.success = true ∧ resp2.transactionId = resp.transactionId ∧
      resp2.fromBalance = resp.fromBalance ∧ resp2.toBalance = resp.toBalance) ∧
    (∃ resp3 st3,
      executeTransfer req2 (invalidateCache req.idempotencyKey st1) = (.ok resp3, st3) ∧
      resp3.success = true ∧ resp3.transactionId = resp.transactionId ∧
      resp3.fromBalance = resp.fromBalance ∧ resp3.toBalance = resp.toBalance) := by
  -- the first run passed validation, else it would have returned an error
  have hval : validateTransferRequest req = none := by
    cases hv : validateTransferRequest req with
    | some e =>
      rw [show executeTransfer req st = (.error e, st) by
            simp only [executeTransfer, hv]] at hrun
      exact absurd (congrArg Prod.fst hrun) (by simp)
    | none => rfl
  rw [executeTransfer_fresh_run req st hval hc hl hlog] at hrun
  cases ht : ledgerTxn req (lockSet req.idempotencyKey st) with
  | error e =>
    rw [ht] at hrun
    exact absurd (congrArg Prod.fst hrun) (by simp)
  | ok out =>
    rw [ht] at hrun
    have hresp : resp = mkSuccessResp out :=
      (Except.ok.inj (congrArg Prod.fst hrun)).symm
    have hst1 : st1 = releaseLock req.idempotencyKey
        (cacheResult req.idempotencyKey (mkSuccessResp out) out.st) :=
      (congrArg Prod.snd hrun).symm
    obtain ⟨hcache, hlocks, hlogkey⟩ :=
      ledgerTxn_ok_state req (lockSet req.idempotencyKey st) out ht
    -- facts about the post-success state
    have h1cache : st1.cache req.idempotencyKey = some resp := by
      rw [hst1, hresp]
      simp
    have h1locks : st1.locks req.idempotencyKey = none := by
      rw [hst1]
      simp
    have h1logs : st1.logs req.idempotencyKey = some (successLogOf req out) := by
      rw [hst1]
      simpa using hlogkey
    refine ⟨by rw [hresp]; rfl, ?_, ?_⟩
    · -- replay served from the cache
      refine ⟨{ resp with
                message := "Transfer already processed (idempotent request) (from cache)" },
              st1, ?_, ?_, rfl, rfl, rfl⟩
      · simp only [executeTransfer, hval2, getCachedResult, hkey, h1cache]
      · rw [hresp]
        rfl
    · -- replay served from the ledger log after the cache entry expired
      have h2cache : (invalidateCache req.idempotencyKey st1).cache req2.idempotencyKey
          = none := by
        rw [hkey]
        simp
      have h2locks : (invalidateCache req.idempotencyKey st1).locks req2.idempotencyKey
          = none := by
        rw [hkey]
        simpa using h1locks
      have h2logs : (invalidateCache req.idempotencyKey st1).logs req2.idempotencyKey =
          some (successLogOf req out) := by
        rw [invalidateCache_logs, hkey]
        exact h1logs
      have hrep := executeTransfer_replay_from_log req2
        (invalidateCache req.idempotencyKey st1) (successLogOf req out)
        hval2 h2cache h2locks h2logs
      refine ⟨buildResponseFromLog (successLogOf req out), _, hrep, rfl, ?_, ?_, ?_⟩
      · rw [hresp]; rfl
      · rw [hresp]; rfl
      · rw [hresp]; rfl

theorem C4_replay_equivalence_witness :
    c4Resp.success = true ∧
    (∃ resp2 st2, executeTransfer c4Req c4St1 = (.ok resp2, st2) ∧
      resp2.success = true ∧ resp2.transactionId = c4Resp.transactionId ∧
      resp2.fromBalance = c4Resp.fromBalance ∧ resp2.toBalance = c4Resp.toBalance) ∧
    (∃ resp3 st3,
      executeTransfer c4Req (invalidateCache c4Req.idempotencyKey c4St1) =
        (.ok resp3, st3) ∧
      resp3.success = true ∧ resp3.transactionId = c4Resp.transactionId ∧
      resp3.fromBalance = c4Resp.fromBalance ∧ resp3.toBalance = c4Resp.toBalance) :=
  C4_replay_equivalence c4Req c4Req c4St c4Resp c4St1 rfl rfl rfl rfl rfl rfl
